import Mathlib

/-!
Verification development for a FastAPI template repository.

This file embeds, as executable Lean definitions, the parts of the code
that the specification's claims are about:

* the RBAC subject model (src/models/user/user.py, src/models/user/role.py)
  and the permission dependency (src/api/deps/access.py);
* the cookie-signing helpers (src/lib/security.py);
* the Redis-backed session store client (src/lib/memory/redis.py);
* the session middleware and its per-request session object
  (src/api/middlewares/session.py);
* the session-user resolution dependency (src/api/deps/auth.py).

Python-level failure modes (TypeError from subscripting None, KeyError,
ValueError from tuple unpacking, HTTPException) are made explicit with an
error type, and dynamically typed arguments that may be either a string or
a list of strings are modelled with a sum type.
-/

set_option autoImplicit false

namespace FastapiTemplate

/-- Python runtime failures that the embedded code can raise. -/
inductive PyErr where
  /-- TypeError, e.g. subscripting or calling a method on None. -/
  | typeError : PyErr
  /-- KeyError from a missing dict key. -/
  | keyError : PyErr
  /-- AttributeError, e.g. None.get. -/
  | attributeError : PyErr
  /-- ValueError, e.g. tuple unpacking of str.split with the wrong arity. -/
  | valueError : PyErr
  /-- fastapi.HTTPException with the given status code. -/
  | httpException : Nat → PyErr
  deriving DecidableEq, Repr

/-! ## RBAC model: src/models/user/permission.py, role.py, user.py -/

/-- A permission record; only the name field takes part in checks. -/
structure Permission where
  name : String
  deriving DecidableEq, Repr

/-- A role record with its eagerly loaded permissions. -/
structure Role where
  name : String
  permissions : List Permission
  deriving DecidableEq, Repr

/-- A user with the fields that the permission checks read: the superuser
flag and the eagerly loaded direct permissions and roles. -/
structure User where
  is_superuser : Bool
  permissions : List Permission
  roles : List Role
  deriving DecidableEq, Repr

/-- The dynamically typed permission argument flowing through
with_access_to and User.can: either a single name (str) or a list of
names (list of str). -/
inductive PermArg where
  | name : String → PermArg
  | names : List String → PermArg
  deriving DecidableEq, Repr

/-- Python equality between a permission argument and a str field: a str
compares by contents, while a list object never equals a str. -/
def permArgEqName (arg : PermArg) (nm : String) : Bool :=
  match arg with
  | .name s => s == nm
  | .names _ => false

/-- Role.has_permission (src/models/user/role.py lines 46-61): returns
False on an empty permission list, otherwise compares the argument with
each permission name (the isinstance int branch is dead for str or list
arguments). -/
def Role.has_permission (r : Role) (arg : PermArg) : Bool :=
  if r.permissions.isEmpty then false
  else r.permissions.any (fun p => permArgEqName arg p.name)

/-- User.has_permission (src/models/user/user.py lines 77-96): direct
permissions first, then roles, with the two if-guards on non-empty
collections from the source. The superuser flag is not consulted here. -/
def User.has_permission (u : User) (arg : PermArg) : Bool :=
  let has_perm := false
  let has_perm :=
    if u.permissions.isEmpty then has_perm
    else u.permissions.any (fun p => permArgEqName arg p.name)
  if u.roles.isEmpty then has_perm
  else has_perm || u.roles.any (fun r => r.has_permission arg)

/-- User.can (src/models/user/user.py lines 59-75): superusers pass
unconditionally; otherwise RequiresPermission(permission) is raised when
has_permission is false. The raised exception carries the argument. -/
def User.can (u : User) (arg : PermArg) : Except PermArg Unit :=
  if u.is_superuser then .ok ()
  else if ¬ u.has_permission arg then .error arg
  else .ok ()

/-- The for-loop over the list branch of with_access_to: calls
user.can(p) on each element in order, propagating the first exception. -/
def User.canAll (u : User) (ps : List String) : Except PermArg Unit :=
  match ps with
  | [] => .ok ()
  | p :: rest =>
    match u.can (.name p) with
    | .error e => .error e
    | .ok _ => u.canAll rest

/-- The has_permission closure built by with_access_to
(src/api/deps/access.py lines 4-13): for a list argument it loops
user.can(p) over the elements, then the final line returns
user.can(permission) applied to the WHOLE original argument; for a single
name it calls user.can(permission) twice. -/
def with_access_to (permission : PermArg) (u : User) : Except PermArg Unit :=
  match permission with
  | .names ps =>
    match u.canAll ps with
    | .error e => .error e
    | .ok _ => u.can permission
  | .name s =>
    match u.can (.name s) with
    | .error e => .error e
    | .ok _ => u.can permission

/-! ## Cookie signing helpers: src/lib/security.py -/

/-- String split on the dot character, as Python str.split, over a char
list model of strings: the empty string splits to one empty part. -/
def splitOnDot : List Char → List (List Char)
  | [] => [[]]
  | c :: rest =>
    if c = '.' then [] :: splitOnDot rest
    else
      match splitOnDot rest with
      | [] => [[c]]
      | h :: t => (c :: h) :: t

/-- The standard base64 alphabet used by base64.b64encode. -/
def b64Alphabet : List Char :=
  ("ABCDEFGHIJKLMNOPQRSTUVWXYZabcdefghijklmnopqrstuvwxyz0123456789+/").toList

/-- Character of the base64 alphabet at a 6-bit index. -/
def b64Char (n : Nat) : Char :=
  match b64Alphabet.get? n with
  | some c => c
  | none => 'A'

/-- base64.b64encode over a byte list: groups of three bytes become four
alphabet characters, with '=' padding for a final group of one or two. -/
def base64Encode : List Nat → List Char
  | [] => []
  | [a] => [b64Char (a / 4), b64Char (a % 4 * 16), '=', '=']
  | [a, b] => [b64Char (a / 4), b64Char (a % 4 * 16 + b / 16), b64Char (b % 16 * 4), '=']
  | a :: b :: c :: rest =>
    b64Char (a / 4) :: b64Char (a % 4 * 16 + b / 16) ::
      b64Char (b % 16 * 4 + c / 64) :: b64Char (c % 64) :: base64Encode rest

/-- create_hmac (src/lib/security.py lines 63-68): the HMAC-SHA256 digest
itself is stdlib cryptography, modelled as a parameter from secret and
message to a byte list; the function base64-encodes it. -/
def create_hmac (digest : List Char → List Char → List Nat)
    (secret message : List Char) : List Char :=
  base64Encode (digest secret message)

/-- create_signed_token (src/lib/security.py lines 71-74): the value,
a dot separator, then the base64 HMAC. -/
def create_signed_token (digest : List Char → List Char → List Nat)
    (value secret : List Char) : List Char :=
  value ++ '.' :: create_hmac digest secret value

/-- verify_signed_token (src/lib/security.py lines 81-83): the two-target
unpacking of token.split raises ValueError unless the split has exactly
two parts; on two parts it compares the signature part with a recomputed
HMAC of the value part. -/
def verify_signed_token (digest : List Char → List Char → List Nat)
    (token secret : List Char) : Except PyErr Bool :=
  match splitOnDot token with
  | [value, sig] => .ok (sig == create_hmac digest secret value)
  | _ => .error .valueError

/-! ## JSON values and Python dict operations -/

/-- A JSON-serializable Python value, the content of session stores. -/
inductive JVal where
  | null : JVal
  | bool : Bool → JVal
  | num : Int → JVal
  | str : String → JVal
  | arr : List JVal → JVal
  | obj : List (String × JVal) → JVal

/-- Dict lookup (dict.get with default None) over an association list
with unique keys, as Python dicts have. -/
def dictGet (d : List (String × JVal)) (k : String) : Option JVal :=
  match d with
  | [] => none
  | (k1, v) :: rest => if k1 = k then some v else dictGet rest k

/-- Dict assignment d[k] = v: replaces in place, or appends a new key at
the end, matching insertion-ordered Python dicts. -/
def dictSet (d : List (String × JVal)) (k : String) (v : JVal) :
    List (String × JVal) :=
  match d with
  | [] => [(k, v)]
  | (k1, v1) :: rest =>
    if k1 = k then (k1, v) :: rest else (k1, v1) :: dictSet rest k v

/-- Dict deletion of a key (caller checks presence for KeyError). -/
def dictDel (d : List (String × JVal)) (k : String) : List (String × JVal) :=
  match d with
  | [] => []
  | (k1, v1) :: rest => if k1 = k then rest else (k1, v1) :: dictDel rest k

/-- Membership test, the in operator on a dict. -/
def dictHasKey (d : List (String × JVal)) (k : String) : Bool :=
  (dictGet d k).isSome

/-- Python truthiness of a JSON value: None, False, zero and empty
containers are falsy. -/
def truthy : JVal → Bool
  | .null => false
  | .bool b => b
  | .num n => n != 0
  | .str s => s != ""
  | .arr l => !l.isEmpty
  | .obj d => !d.isEmpty

/-! ## Redis session store client: src/lib/memory/redis.py -/

/-- Bytes stored under a Redis key: either bytes that parse as the given
JSON value, or bytes on which json.loads fails. -/
inductive Raw where
  | jsonOf : JVal → Raw
  | corrupt : Raw

/-- The Redis keyspace: key to stored bytes (TTLs are not modelled; an
expired key is simply absent). -/
def Mem : Type := List (String × Raw)

/-- Lookup of a Redis key. -/
def memLookup (m : Mem) (k : String) : Option Raw :=
  match m with
  | [] => none
  | (k1, v) :: rest => if k1 = k then some v else memLookup rest k

/-- Redis SET key value. -/
def memSet (m : Mem) (k : String) (v : Raw) : Mem :=
  match m with
  | [] => [(k, v)]
  | (k1, v1) :: rest =>
    if k1 = k then (k1, v) :: rest else (k1, v1) :: memSet rest k v

/-- Redis DEL key; deleting an absent key is a no-op. -/
def memDel (m : Mem) (k : String) : Mem :=
  match m with
  | [] => []
  | (k1, v1) :: rest => if k1 = k then memDel rest k else (k1, v1) :: memDel rest k

namespace RedisMemory

/-- RedisMemory._make_key: the fixed key pattern session:{session_id}. -/
def make_key (session_id : String) : String := "session:" ++ session_id

/-- RedisMemory.has (src/lib/memory/redis.py lines 34-45): EXISTS on the
session key. -/
def has (m : Mem) (session_id : String) : Bool :=
  (memLookup m (make_key session_id)).isSome

/-- RedisMemory.get_store (src/lib/memory/redis.py lines 58-76): GET the
key; absent gives None, and bytes that fail json.loads also give None. -/
def get_store (m : Mem) (session_id : String) : Option JVal :=
  match memLookup m (make_key session_id) with
  | none => none
  | some (.jsonOf v) => some v
  | some .corrupt => none

/-- RedisMemory.save_store (src/lib/memory/redis.py lines 78-89): SET the
key to the serialized data with a refreshed TTL. -/
def save_store (m : Mem) (session_id : String) (data : JVal) : Mem :=
  memSet m (make_key session_id) (.jsonOf data)

/-- RedisMemory.clear (src/lib/memory/redis.py lines 30-32): DEL the key. -/
def clear (m : Mem) (session_id : String) : Mem :=
  memDel m (make_key session_id)

end RedisMemory

/-! ## Per-request session object: SessionIntegration
(src/api/middlewares/session.py lines 13-43) -/

/-- The per-request session object: a session id plus the envelope dict.
The envelope field named store in the source is an arbitrary Python value
after load (whatever JSON the Redis entry held), and None after clear or
after a load that found nothing. -/
structure SessionIntegration where
  id : String
  store : Option JVal

/-- The envelope a freshly constructed SessionIntegration holds:
the dict with the single inner bucket, store: {}. -/
def initEnvelope : JVal := .obj [("store", .obj [])]

namespace SessionIntegration

/-- The setitem operator (line 19-20): self.store["store"][key] = value.
Subscripting None raises TypeError; a dict envelope without the inner
store key raises KeyError; item assignment on a non-dict inner value
raises TypeError. -/
def setItem (s : SessionIntegration) (k : String) (v : JVal) :
    Except PyErr SessionIntegration :=
  match s.store with
  | none => .error .typeError
  | some (.obj fields) =>
    match dictGet fields "store" with
    | some (.obj bucket) =>
      .ok { s with store := some (.obj (dictSet fields "store" (.obj (dictSet bucket k v)))) }
    | some _ => .error .typeError
    | none => .error .keyError
  | some _ => .error .typeError

/-- The getitem operator (line 22-23): self.store["store"].get(key). -/
def getItem (s : SessionIntegration) (k : String) : Except PyErr (Option JVal) :=
  match s.store with
  | none => .error .typeError
  | some (.obj fields) =>
    match dictGet fields "store" with
    | some (.obj bucket) => .ok (dictGet bucket k)
    | some _ => .error .typeError
    | none => .error .keyError
  | some _ => .error .typeError

/-- The contains operator (line 25-26): key in self.store["store"].
Subscripting None raises TypeError; the claims only exercise this with a
dict inner bucket or an absent envelope. -/
def containsKey (s : SessionIntegration) (k : String) : Except PyErr Bool :=
  match s.store with
  | none => .error .typeError
  | some (.obj fields) =>
    match dictGet fields "store" with
    | some (.obj bucket) => .ok (dictHasKey bucket k)
    | some _ => .error .typeError
    | none => .error .keyError
  | some _ => .error .typeError

/-- The delitem operator (line 28-29): del self.store["store"][key];
deleting an absent key raises KeyError. -/
def delItem (s : SessionIntegration) (k : String) :
    Except PyErr SessionIntegration :=
  match s.store with
  | none => .error .typeError
  | some (.obj fields) =>
    match dictGet fields "store" with
    | some (.obj bucket) =>
      if dictHasKey bucket k then
        .ok { s with store := some (.obj (dictSet fields "store" (.obj (dictDel bucket k)))) }
      else .error .keyError
    | some _ => .error .typeError
    | none => .error .keyError
  | some _ => .error .typeError

/-- SessionIntegration.load (lines 31-32): replace the envelope by
whatever get_store returns, None included. -/
def load (s : SessionIntegration) (m : Mem) : SessionIntegration :=
  { s with store := RedisMemory.get_store m s.id }

/-- SessionIntegration.clear (lines 34-37): delete the store entry and
set the envelope to None. -/
def clear (s : SessionIntegration) (m : Mem) : SessionIntegration × Mem :=
  ({ s with store := none }, RedisMemory.clear m s.id)

/-- SessionIntegration.save (lines 39-43): persist the envelope with a
15-minute TTL; json.dumps maps a None envelope to the null value. -/
def save (s : SessionIntegration) (m : Mem) : Mem :=
  RedisMemory.save_store m s.id (match s.store with | some v => v | none => .null)

end SessionIntegration

/-! ## Session middleware: src/api/middlewares/session.py lines 46-279 -/

/-- The middleware configuration slice the dispatch logic reads: the
authx SignatureSerializer is external library code, modelled by its two
operations over the cookie payload dict with the single cookie-name key.
encode signs a session id into a cookie value; decode returns the
embedded session id when the signature (and expiry) verifies and none
when verification fails. -/
structure MwConfig where
  encode : String → String
  decode : String → Option String

/-- create_session_cookie (lines 90-134): the Set-Cookie value carries
the serializer encoding of the session id; path and flag attributes do
not affect the claims and are left out of the modelled value. -/
def MwConfig.create_session_cookie (cfg : MwConfig) (session_id : String) : String :=
  cfg.encode session_id

/-- create_session (lines 253-278): a new SessionIntegration around a
fresh uuid4 id (passed in as fresh_id), tagged with its cause through the
setitem operator. The setItem call cannot fail on the fresh envelope; the
error branch is unreachable. -/
def create_session (fresh_id : String) (cause : String) : SessionIntegration :=
  let s : SessionIntegration := { id := fresh_id, store := some initEnvelope }
  match s.setItem "__cause__" (.str cause) with
  | .ok s2 => s2
  | .error _ => s

/-- Request-entry half of dispatch (lines 197-236): from the incoming
cookie, decide the session and whether a new cookie is pending. Returns
the attached session and the pending Set-Cookie value, or the Python
error dispatch would raise. The fresh uuid4 id that create_session would
draw is passed in as fresh_id. -/
def dispatchEntry (cfg : MwConfig) (m : Mem) (cookieIn : Option String)
    (fresh_id : String) : Except PyErr (SessionIntegration × Option String) :=
  match cookieIn with
  | none =>
    let session := create_session fresh_id "new"
    .ok (session, some (cfg.create_session_cookie session.id))
  | some signed =>
    match cfg.decode signed with
    | some session_id =>
      if RedisMemory.has m session_id then
        let s0 : SessionIntegration := { id := session_id, store := some initEnvelope }
        let s1 := s0.load m
        match s1.setItem "__cause__" (.str "success") with
        | .ok s2 => .ok (s2, none)
        | .error e => .error e
      else
        let session := create_session fresh_id "valid_cookie_but_no_store"
        .ok (session, some (cfg.create_session_cookie session.id))
    | none =>
      let session := create_session fresh_id "renew"
      .ok (session, some (cfg.create_session_cookie session.id))

/-- The outcome of one dispatch: the final session, the store state, the
Set-Cookie header if one was emitted, and whether delete_cookie ran. -/
structure DispatchOutcome where
  session : SessionIntegration
  mem : Mem
  setCookieHeader : Option String
  cookieDeleted : Bool

/-- Request-exit half of dispatch (lines 240-251): save unless the
envelope is None, emit the pending Set-Cookie only when the envelope is
not None, and delete the cookie exactly when the envelope is None. -/
def dispatchExit (session : SessionIntegration) (cookie : Option String)
    (m : Mem) : DispatchOutcome :=
  let m1 := match session.store with
    | some _ => session.save m
    | none => m
  let setC := match cookie, session.store with
    | some c, some _ => some c
    | _, _ => none
  { session := session, mem := m1, setCookieHeader := setC,
    cookieDeleted := session.store.isNone }

/-- SessionMiddleware.dispatch (lines 180-251) on the non-skipped path:
entry decision, then the downstream handler (which may mutate the session
object and the store, e.g. by session.clear), then the exit step. -/
def dispatch (cfg : MwConfig) (m : Mem) (cookieIn : Option String)
    (fresh_id : String)
    (handler : SessionIntegration → Mem → SessionIntegration × Mem) :
    Except PyErr DispatchOutcome :=
  match dispatchEntry cfg m cookieIn fresh_id with
  | .error e => .error e
  | .ok (session, cookie) =>
    let (s2, m2) := handler session m
    .ok (dispatchExit s2 cookie m2)

/-! ## Session-user resolution: src/api/deps/auth.py lines 23-51 -/

/-- get_session_user: the cache probe reads session.store.get("user") on
the OUTER envelope (calling .get on a None or non-dict envelope raises
AttributeError); a truthy hit is returned as the cached user with no
persistence call; otherwise the persistence service is consulted by
session token, a found user is cached through the setitem operator and
returned, and an absent user raises HTTPException 401. The boolean in the
result records whether the persistence service was consulted. -/
def get_session_user (s : SessionIntegration)
    (dbFind : String → Option JVal) :
    Except PyErr (JVal × SessionIntegration × Bool) :=
  let fromDb : Except PyErr (JVal × SessionIntegration × Bool) :=
    match dbFind s.id with
    | some u =>
      match s.setItem "user" u with
      | .ok s2 => .ok (u, s2, true)
      | .error e => .error e
    | none => .error (.httpException 401)
  match s.store with
  | none => .error .attributeError
  | some (.obj fields) =>
    match dictGet fields "user" with
    | some v => if truthy v then .ok (v, s, false) else fromDb
    | none => fromDb
  | some _ => .error .attributeError

/-! ## Theorems: RBAC claims -/

/-- Normal form of Role.has_permission: the empty-list guard is
redundant because any over the empty list is already false. -/
theorem role_has_permission_eq_any (r : Role) (arg : PermArg) :
    r.has_permission arg = r.permissions.any (fun p => permArgEqName arg p.name) := by
  unfold Role.has_permission
  rcases r with ⟨n, ps⟩
  cases ps <;> simp

/-- Normal form of User.has_permission: the two emptiness guards are
redundant, leaving the disjunction of the direct-permission scan and the
per-role scans. -/
theorem user_has_permission_eq_any (u : User) (arg : PermArg) :
    u.has_permission arg
      = (u.permissions.any (fun p => permArgEqName arg p.name)
          || u.roles.any (fun r => r.has_permission arg)) := by
  unfold User.has_permission
  rcases u with ⟨su, perms, roles⟩
  cases perms <;> cases roles <;> simp [role_has_permission_eq_any]

/-- C1: the claim states that the list form of with_access_to succeeds
for a non-superuser holding every listed permission. The code contradicts
it: after looping user.can over the elements, the final line calls
user.can with the whole list, whose comparison against str names is
always false, so RequiresPermission is raised carrying the list. Here a
non-superuser holding both p1 and p2 is rejected by the list check. -/
theorem c1_list_check_rejects_compliant_user :
    (User.has_permission
        { is_superuser := false,
          permissions := [{ name := "p1" }, { name := "p2" }], roles := [] }
        (.name "p1") = true)
    ∧ (User.has_permission
        { is_superuser := false,
          permissions := [{ name := "p1" }, { name := "p2" }], roles := [] }
        (.name "p2") = true)
    ∧ with_access_to (.names ["p1", "p2"])
        { is_superuser := false,
          permissions := [{ name := "p1" }, { name := "p2" }], roles := [] }
      = .error (.names ["p1", "p2"]) :=
  ⟨rfl, rfl, rfl⟩

/-- C2 counterexample: the claim asserts that has_permission returns true
for every name when the superuser flag is set; but User.has_permission
never consults the flag, and on a superuser with no direct permissions
and no roles it returns false. -/
theorem c2_counterexample :
    User.has_permission
      { is_superuser := true, permissions := [], roles := [] }
      (.name "posts:write") = false :=
  rfl

/-- C2 (amended): the superuser bypass lives in User.can, the permission
check entry point that raises: for every subject whose superuser flag is
set and every permission argument, can returns without raising. -/
theorem c2_superuser_can_ok (u : User) (arg : PermArg)
    (h : u.is_superuser = true) : u.can arg = .ok () := by
  unfold User.can
  rw [h]
  simp

/-- C2 witness: the amended theorem at a superuser with no grants and an
unregistered permission name. -/
theorem c2_superuser_can_ok_witness :
    (User.is_superuser { is_superuser := true, permissions := [], roles := [] } = true)
    ∧ User.can { is_superuser := true, permissions := [], roles := [] }
        (.name "unknown:perm") = .ok () :=
  ⟨rfl, c2_superuser_can_ok _ _ rfl⟩

/-- C6: for a subject (the flag is irrelevant to has_permission, so in
particular for a non-superuser), has_permission is true exactly when the
name is among the direct permissions or among the permissions of some
role, and empty collections give false without an error. -/
theorem c6_has_permission_union_semantics (u : User) (P : String)
    (hsu : u.is_superuser = false) :
    (u.has_permission (.name P) = true
      ↔ ((∃ p ∈ u.permissions, p.name = P)
          ∨ ∃ r ∈ u.roles, ∃ q ∈ r.permissions, q.name = P))
    ∧ (u.permissions = [] → u.roles = [] → u.has_permission (.name P) = false) := by
  constructor
  · rw [user_has_permission_eq_any]
    simp only [Bool.or_eq_true, List.any_eq_true, role_has_permission_eq_any,
      permArgEqName, beq_iff_eq]
    constructor
    · rintro (⟨p, hp, he⟩ | ⟨r, hr, q, hq, he⟩)
      · exact Or.inl ⟨p, hp, he.symm⟩
      · exact Or.inr ⟨r, hr, q, hq, he.symm⟩
    · rintro (⟨p, hp, he⟩ | ⟨r, hr, q, hq, he⟩)
      · exact Or.inl ⟨p, hp, he.symm⟩
      · exact Or.inr ⟨r, hr, q, hq, he.symm⟩
  · intro hp hr
    rw [user_has_permission_eq_any, hp, hr]
    rfl

/-- C6 witness: a subject with role editor carrying posts:write and no
direct permissions holds posts:write via the role path. -/
theorem c6_has_permission_union_semantics_witness :
    (User.is_superuser
      { is_superuser := false, permissions := [],
        roles := [{ name := "editor", permissions := [{ name := "posts:write" }] }] } = false)
    ∧ (User.has_permission
        { is_superuser := false, permissions := [],
          roles := [{ name := "editor", permissions := [{ name := "posts:write" }] }] }
        (.name "posts:write") = true
      ↔ ((∃ p ∈ ([] : List Permission), p.name = "posts:write")
          ∨ ∃ r ∈ [({ name := "editor", permissions := [{ name := "posts:write" }] } : Role)],
              ∃ q ∈ r.permissions, q.name = "posts:write")) :=
  ⟨rfl, (c6_has_permission_union_semantics _ "posts:write" rfl).1⟩

/-! ## Theorems: session middleware claims -/

/-- Computation of create_session: the fresh envelope holds the single
inner bucket containing only the cause tag. -/
theorem create_session_eq (fresh_id cause : String) :
    create_session fresh_id cause
      = { id := fresh_id,
          store := some (.obj [("store", .obj [("__cause__", .str cause)])]) } := by
  simp [create_session, SessionIntegration.setItem, initEnvelope, dictGet, dictSet]

/-- C4: a cookie whose signature verifies but whose session id has no
store entry makes dispatchEntry return, without an error, a session under
the fresh identifier (distinct from the cookie's identifier, by freshness
of uuid4), whose envelope is the fresh bucket holding only the cause tag
and none of the data under the old identifier, with a new signed cookie
pending. -/
theorem c4_stale_cookie_creates_new_session (cfg : MwConfig) (m : Mem)
    (signed session_id fresh_id : String)
    (hdec : cfg.decode signed = some session_id)
    (hno : RedisMemory.has m session_id = false)
    (hfresh : fresh_id ≠ session_id) :
    dispatchEntry cfg m (some signed) fresh_id
      = .ok (create_session fresh_id "valid_cookie_but_no_store",
             some (cfg.create_session_cookie fresh_id))
    ∧ (create_session fresh_id "valid_cookie_but_no_store").id ≠ session_id
    ∧ (create_session fresh_id "valid_cookie_but_no_store").store
        = some (.obj [("store", .obj [("__cause__", .str "valid_cookie_but_no_store")])]) := by
  refine ⟨?_, ?_, ?_⟩
  · simp [dispatchEntry, hdec, hno, create_session_eq]
  · rw [create_session_eq]
    exact hfresh
  · rw [create_session_eq]

/-- C4 witness: a store with no entry for the decoded identifier. -/
theorem c4_stale_cookie_creates_new_session_witness :
    (MwConfig.decode ⟨fun s => s, fun _ => some "old-sid"⟩ "any-signed" = some "old-sid")
    ∧ (RedisMemory.has ([] : Mem) "old-sid" = false)
    ∧ dispatchEntry ⟨fun s => s, fun _ => some "old-sid"⟩ [] (some "any-signed") "fresh-sid"
        = .ok (create_session "fresh-sid" "valid_cookie_but_no_store", some "fresh-sid") :=
  ⟨rfl, rfl,
    (c4_stale_cookie_creates_new_session ⟨fun s => s, fun _ => some "old-sid"⟩ []
      "any-signed" "old-sid" "fresh-sid" rfl rfl (by decide)).1⟩

/-- C5: at request exit, a session whose envelope is in the no-store
state produces a cookie deletion, no Set-Cookie header (even when a
new-cookie decision is pending from request entry), and leaves the store
untouched (no save). -/
theorem c5_clear_wins_over_needs_cookie (s : SessionIntegration)
    (cookie : Option String) (m : Mem) (h : s.store = none) :
    dispatchExit s cookie m
      = { session := s, mem := m, setCookieHeader := none, cookieDeleted := true } := by
  unfold dispatchExit
  rw [h]
  cases cookie <;> simp

/-- C5 witness: a cleared session with a pending new-cookie decision. -/
theorem c5_clear_wins_over_needs_cookie_witness :
    (SessionIntegration.store ⟨"sid", none⟩ = none)
    ∧ dispatchExit ⟨"sid", none⟩ (some "pending-cookie") []
        = { session := ⟨"sid", none⟩, mem := [], setCookieHeader := none,
            cookieDeleted := true } :=
  ⟨rfl, c5_clear_wins_over_needs_cookie ⟨"sid", none⟩ (some "pending-cookie") [] rfl⟩

/-- C7 counterexample: the claim asserts that, before any handler write,
membership is false for every key the middleware uses internally; but
create_session writes its bookkeeping tag through the setitem operator
into the exposed inner bucket, so the contains operation already reports
the cause key on a freshly attached session. -/
theorem c7_counterexample :
    (create_session "fresh-sid" "new").containsKey "__cause__" = .ok true := by
  rw [create_session_eq]
  rfl

/-- C7 (amended): the two-level envelope does keep middleware state out
of the exposed bucket for every key except the cause tag: on a session
freshly created by the middleware, membership is false for every key
other than the cause key, and true for the cause key itself. -/
theorem c7_fresh_bucket_contains_only_cause (fresh_id cause k : String)
    (h : k ≠ "__cause__") :
    (create_session fresh_id cause).containsKey k = .ok false
    ∧ (create_session fresh_id cause).containsKey "__cause__" = .ok true := by
  rw [create_session_eq]
  constructor
  · simp [SessionIntegration.containsKey, dictGet, dictHasKey, Ne.symm h]
  · rfl

/-- C7 witness: the application-level key user is absent from a fresh
session's bucket while the cause tag is present. -/
theorem c7_fresh_bucket_contains_only_cause_witness :
    ("user" ≠ "__cause__")
    ∧ (create_session "fresh-sid" "new").containsKey "user" = .ok false :=
  ⟨by decide, (c7_fresh_bucket_contains_only_cause "fresh-sid" "new" "user" (by decide)).1⟩

/-- C8: writing to or deleting from a session whose envelope is in the
no-store state (after clear, or after a load that found nothing) always
fails with the TypeError from subscripting the absent envelope; it never
silently succeeds. -/
theorem c8_write_after_clear_fails (s : SessionIntegration) (k : String)
    (v : JVal) (h : s.store = none) :
    s.setItem k v = .error .typeError ∧ s.delItem k = .error .typeError := by
  unfold SessionIntegration.setItem SessionIntegration.delItem
  rw [h]
  exact ⟨rfl, rfl⟩

/-- C8 witness: a cleared session rejects a write and a delete. -/
theorem c8_write_after_clear_fails_witness :
    (SessionIntegration.store ⟨"sid", none⟩ = none)
    ∧ SessionIntegration.setItem ⟨"sid", none⟩ "k" .null = .error .typeError
    ∧ SessionIntegration.delItem ⟨"sid", none⟩ "k" = .error .typeError :=
  ⟨rfl, (c8_write_after_clear_fails ⟨"sid", none⟩ "k" .null rfl).1,
    (c8_write_after_clear_fails ⟨"sid", none⟩ "k" .null rfl).2⟩

/-- C10: when the cookie verifies and the existence check succeeds but
the stored bytes fail to deserialize, get_store yields none, the loaded
envelope is None, and tagging the session with the success cause raises
TypeError out of dispatch instead of falling back to a new session; the
new-session fallback fires exactly when the existence check fails. -/
theorem c10_corrupt_entry_raises_type_error (cfg : MwConfig) (m : Mem)
    (signed session_id fresh_id : String)
    (handler : SessionIntegration → Mem → SessionIntegration × Mem)
    (hdec : cfg.decode signed = some session_id) :
    (RedisMemory.has m session_id = true →
      RedisMemory.get_store m session_id = none →
      dispatch cfg m (some signed) fresh_id handler = .error .typeError)
    ∧ (RedisMemory.has m session_id = false →
      dispatchEntry cfg m (some signed) fresh_id
        = .ok (create_session fresh_id "valid_cookie_but_no_store",
               some (cfg.create_session_cookie fresh_id))) := by
  constructor
  · intro hhas hget
    simp [dispatch, dispatchEntry, hdec, hhas, SessionIntegration.load, hget,
      SessionIntegration.setItem]
  · intro hno
    simp [dispatchEntry, hdec, hno, create_session_eq]

/-- C10 witness: a store whose only entry for the session holds bytes
that do not parse as JSON. -/
theorem c10_corrupt_entry_raises_type_error_witness :
    (RedisMemory.has [("session:abc", Raw.corrupt)] "abc" = true)
    ∧ (RedisMemory.get_store [("session:abc", Raw.corrupt)] "abc" = none)
    ∧ dispatch ⟨fun s => s, fun _ => some "abc"⟩ [("session:abc", Raw.corrupt)]
        (some "signed") "fresh" (fun s m => (s, m)) = .error .typeError :=
  ⟨rfl, rfl,
    (c10_corrupt_entry_raises_type_error ⟨fun s => s, fun _ => some "abc"⟩
      [("session:abc", Raw.corrupt)] "signed" "abc" "fresh" (fun s m => (s, m))
      rfl).1 rfl rfl⟩

/-! ## Theorems: session-user resolution (C3) -/

/-- The session state that a request after a successful login carries:
the middleware reloaded the envelope that login had saved, whose inner
bucket caches the user payload, and tagged the load with the success
cause. -/
def postLoginSession : SessionIntegration :=
  { id := "sid-1",
    store := some (.obj [("store",
      .obj [("user", .obj [("id", .num 1), ("email", .str "a@b.c")]),
            ("__cause__", .str "success")])]) }

/-- C3: the claim states that after login cached the user payload, a
subsequent request resolves the user from the session cache with no
persistence lookup. The code contradicts it: the cache probe reads key
user on the OUTER envelope, where only the inner bucket key lives, so it
always misses and the persistence service is consulted. Here the payload
is demonstrably cached in the inner bucket (the session getitem operator
returns it), yet get_session_user consults the persistence service and
returns its answer, not the cached payload. -/
theorem c3_cache_probe_reads_wrong_level :
    postLoginSession.getItem "user"
      = .ok (some (.obj [("id", .num 1), ("email", .str "a@b.c")]))
    ∧ get_session_user postLoginSession (fun _ => some (.str "db-user"))
      = .ok (.str "db-user",
             { id := "sid-1",
               store := some (.obj [("store",
                 .obj [("user", .str "db-user"),
                       ("__cause__", .str "success")])]) },
             true) :=
  ⟨rfl, rfl⟩

/-! ## Theorems: cookie signing round-trip (C9) -/

/-- Splitting a dot-free string yields the single whole part. -/
theorem splitOnDot_of_no_dot (s : List Char) (h : '.' ∉ s) :
    splitOnDot s = [s] := by
  induction s with
  | nil => rfl
  | cons c rest ih =>
    have hc : ¬ c = '.' := fun e => h (by simp [e])
    have hr : '.' ∉ rest := fun hm => h (List.mem_cons_of_mem _ hm)
    simp [splitOnDot, hc, ih hr]

/-- Splitting at the first dot after a dot-free prefix peels the prefix. -/
theorem splitOnDot_append_dot (v sig : List Char) (h : '.' ∉ v) :
    splitOnDot (v ++ '.' :: sig) = v :: splitOnDot sig := by
  induction v with
  | nil => simp [splitOnDot]
  | cons c rest ih =>
    have hc : ¬ c = '.' := fun e => h (by simp [e])
    have hr : '.' ∉ rest := fun hm => h (List.mem_cons_of_mem _ hm)
    simp [splitOnDot, hc, ih hr]

/-- Every character of the base64 alphabet table differs from the dot. -/
theorem b64Char_ne_dot (n : Nat) : b64Char n ≠ '.' := by
  unfold b64Char
  cases hg : b64Alphabet.get? n with
  | none => simp
  | some c =>
    have hm : c ∈ b64Alphabet := List.get?_mem hg
    simp only []
    intro e
    rw [e] at hm
    revert hm
    decide

/-- The base64 encoding of any byte list never contains the dot
character, the separator of the signed-token format. -/
theorem base64Encode_no_dot : ∀ bs : List Nat, '.' ∉ base64Encode bs
  | [] => by simp [base64Encode]
  | [a] => by
    simp only [base64Encode, List.mem_cons, List.not_mem_nil, or_false]
    rintro (e | e | e | e) <;>
      first
      | exact b64Char_ne_dot _ e.symm
      | simp_all
  | [a, b] => by
    simp only [base64Encode, List.mem_cons, List.not_mem_nil, or_false]
    rintro (e | e | e | e) <;>
      first
      | exact b64Char_ne_dot _ e.symm
      | simp_all
  | a :: b :: c :: rest => by
    have ih := base64Encode_no_dot rest
    simp only [base64Encode, List.mem_cons]
    rintro (e | e | e | e | hm) <;>
      first
      | exact b64Char_ne_dot _ e.symm
      | exact ih hm

/-- C9: for every digest function, secret, and dot-free identifier value,
verifying the signed token succeeds (the comparison holds), and the value
part of the split is exactly the original value — the round-trip recovers
it with no error. The dot-freeness of the signature part is not an
assumption: base64 output never contains a dot. -/
theorem c9_sign_verify_roundtrip (digest : List Char → List Char → List Nat)
    (value secret : List Char) (h : '.' ∉ value) :
    verify_signed_token digest (create_signed_token digest value secret) secret
      = .ok true
    ∧ splitOnDot (create_signed_token digest value secret)
      = [value, create_hmac digest secret value] := by
  have hs : '.' ∉ create_hmac digest secret value := base64Encode_no_dot _
  have hsplit : splitOnDot (create_signed_token digest value secret)
      = [value, create_hmac digest secret value] := by
    unfold create_signed_token
    rw [splitOnDot_append_dot _ _ h, splitOnDot_of_no_dot _ hs]
  refine ⟨?_, hsplit⟩
  unfold verify_signed_token
  rw [hsplit]
  simp

/-- C9 witness: a concrete digest, value and secret. -/
theorem c9_sign_verify_roundtrip_witness :
    ('.' ∉ (['a', 'b'] : List Char))
    ∧ verify_signed_token (fun _ _ => [0, 1, 2])
        (create_signed_token (fun _ _ => [0, 1, 2]) ['a', 'b'] ['s']) ['s']
      = .ok true :=
  ⟨by decide,
    (c9_sign_verify_roundtrip (fun _ _ => [0, 1, 2]) ['a', 'b'] ['s'] (by decide)).1⟩

end FastapiTemplate
